import Mathlib

/-!
Verification of the `qrcodepix` PIX BR Code payload encoder.

The development shallowly embeds the Python modules
`src/qrcodepix/core/payload.py` and `src/qrcodepix/core/crc16.py`.
Python `str` values are modelled as `List Char`, Python `bytes` as
`List Nat` (each element a byte value), machine integers as `Nat`
with explicit `% 2 ^ 16` where the source masks with `0xFFFF`, and
functions that `raise ValueError` are modelled in `Except String`.
Python standard-library primitives used by the source
(`unicodedata`, `re`, `str` methods, number formatting) are modelled
from their documented behaviour; each such model carries a doc
comment saying what it models.
-/

set_option maxRecDepth 1000000

namespace QrcodePix

/-! ## CRC-16 (core/payload.py `crc16`, core/crc16.py `crc16_ccitt`) -/

/-- Constant `POLY = 0x1021`, shared by both CRC implementations. -/
def POLY : Nat := 0x1021

/-- Constant `INIT = 0xFFFF`, shared by both CRC implementations. -/
def INIT : Nat := 0xFFFF

/-- One inner-loop iteration of `crc16` in `core/payload.py`:
`if crc & 0x8000: crc = ((crc << 1) ^ POLY) & 0xFFFF else: crc = (crc << 1) & 0xFFFF`.
The mask `& 0xFFFF` is written `% 2 ^ 16`. -/
def crc16Round (crc : Nat) : Nat :=
  if crc &&& 0x8000 ≠ 0 then ((crc <<< 1) ^^^ POLY) % 2 ^ 16
  else (crc <<< 1) % 2 ^ 16

/-- One inner-loop iteration of `crc16_ccitt` in `core/crc16.py`:
`if crc & 0x8000: crc = ((crc << 1) & 0xFFFF) ^ POLY else: crc = (crc << 1) & 0xFFFF`.
Note the mask is applied before the polynomial XOR, unlike `crc16Round`. -/
def ccittRound (crc : Nat) : Nat :=
  if crc &&& 0x8000 ≠ 0 then ((crc <<< 1) % 2 ^ 16) ^^^ POLY
  else (crc <<< 1) % 2 ^ 16

/-- Iterate a round function `n` times (the source runs the body 8 times per byte). -/
def rounds (f : Nat → Nat) : Nat → Nat → Nat
  | 0, crc => crc
  | n + 1, crc => rounds f n (f crc)

/-- Per-byte step of `crc16` in `core/payload.py`:
`crc ^= (b << 8)` followed by 8 inner iterations. -/
def crc16Byte (crc b : Nat) : Nat :=
  rounds crc16Round 8 (crc ^^^ (b <<< 8))

/-- Per-byte step of `crc16_ccitt` in `core/crc16.py`. -/
def ccittByte (crc b : Nat) : Nat :=
  rounds ccittRound 8 (crc ^^^ (b <<< 8))

/-- The CRC register computed by `crc16` in `core/payload.py` over a byte list. -/
def crc16Reg (data : List Nat) : Nat :=
  data.foldl crc16Byte INIT

/-- The CRC register computed by `crc16_ccitt` in `core/crc16.py` over a byte list. -/
def ccittReg (data : List Nat) : Nat :=
  data.foldl ccittByte INIT

/-- Uppercase hexadecimal digit character for `n < 16` (as produced by Python `%X`). -/
def hexUpperChar (n : Nat) : Char :=
  if n < 10 then Char.ofNat (48 + n) else Char.ofNat (55 + n)

/-- Python `f"{n:04X}"` for `n < 2 ^ 16`: four uppercase, zero-padded hex digits.
The CRC register always stays below `2 ^ 16` (`crc16Reg_lt`), so this covers
every value the source ever formats. -/
def fmt04X (n : Nat) : List Char :=
  [hexUpperChar (n / 4096 % 16), hexUpperChar (n / 256 % 16),
   hexUpperChar (n / 16 % 16), hexUpperChar (n % 16)]

/-- Function `crc16(payload_bytes)` of `core/payload.py`: the register formatted as
4 uppercase hex characters. -/
def crc16 (data : List Nat) : List Char :=
  fmt04X (crc16Reg data)

/-- Function `crc16_ccitt(data)` of `core/crc16.py`. -/
def crc16_ccitt (data : List Nat) : List Char :=
  fmt04X (ccittReg data)

/-! ## UTF-8 and character classes -/

/-- UTF-8 encoding of a single character (Python `str.encode("utf-8")`, per char). -/
def charUtf8 (c : Char) : List Nat :=
  let n := c.toNat
  if n < 0x80 then [n]
  else if n < 0x800 then
    [0xC0 + n / 64, 0x80 + n % 64]
  else if n < 0x10000 then
    [0xE0 + n / 4096, 0x80 + n / 64 % 64, 0x80 + n % 64]
  else
    [0xF0 + n / 262144, 0x80 + n / 4096 % 64, 0x80 + n / 64 % 64, 0x80 + n % 64]

/-- UTF-8 encoding of a string (Python `value.encode("utf-8")`). -/
def strUtf8 (s : List Char) : List Nat :=
  s.foldr (fun c acc => charUtf8 c ++ acc) []

/-- Whether `c` is an uppercase hexadecimal digit (`0`-`9` or `A`-`F`). -/
def isHexUpperDigit (c : Char) : Bool :=
  (decide (48 ≤ c.toNat) && decide (c.toNat ≤ 57)) ||
  (decide (65 ≤ c.toNat) && decide (c.toNat ≤ 70))

/-- Whether `c` is an ASCII decimal digit (the class `[0-9]` of the source's regexes). -/
def isDigitChar (c : Char) : Bool :=
  decide (48 ≤ c.toNat) && decide (c.toNat ≤ 57)

/-- Numeric value of an ASCII decimal digit. -/
def digitVal (c : Char) : Nat := c.toNat - 48

/-- Models Python whitespace (`\s` in `str` regexes, `str.isspace`, `str.strip()`
with no argument): ASCII whitespace, the C1 separators, and the Unicode space
characters. -/
def isPySpace (c : Char) : Bool :=
  (decide (9 ≤ c.toNat) && decide (c.toNat ≤ 13)) || decide (c.toNat = 32) ||
  (decide (28 ≤ c.toNat) && decide (c.toNat ≤ 31)) || decide (c.toNat = 0x85) ||
  decide (c.toNat = 0xA0) || decide (c.toNat = 0x1680) ||
  (decide (0x2000 ≤ c.toNat) && decide (c.toNat ≤ 0x200A)) ||
  decide (c.toNat = 0x2028) || decide (c.toNat = 0x2029) ||
  decide (c.toNat = 0x202F) || decide (c.toNat = 0x205F) || decide (c.toNat = 0x3000)

/-- The character class kept by `re.sub(r"[^A-Za-z0-9\s]", "", ·)` in
`normalize_text`: ASCII letters, ASCII digits, whitespace. -/
def isWordKeep (c : Char) : Bool :=
  (decide (65 ≤ c.toNat) && decide (c.toNat ≤ 90)) ||
  (decide (97 ≤ c.toNat) && decide (c.toNat ≤ 122)) ||
  isDigitChar c || isPySpace c

/-- Uppercase ASCII letter or ASCII digit (the non-space output alphabet of
`normalize_text`). -/
def isUpperAlnum (c : Char) : Bool :=
  (decide (65 ≤ c.toNat) && decide (c.toNat ≤ 90)) || isDigitChar c

/-- Models Python `str.upper()` on the characters reachable in this code
(ASCII letters, digits, whitespace): maps `a`-`z` to `A`-`Z`, fixes everything
else. -/
def pyUpperChar (c : Char) : Char :=
  if 97 ≤ c.toNat ∧ c.toNat ≤ 122 then Char.ofNat (c.toNat - 32) else c

/-- Models Python `str.lower()` on the characters reachable in this code:
maps `A`-`Z` to `a`-`z`, fixes everything else. -/
def pyLowerChar (c : Char) : Char :=
  if 65 ≤ c.toNat ∧ c.toNat ≤ 90 then Char.ofNat (c.toNat + 32) else c

/-- Models Python `str.strip()` with no argument: removes leading and trailing
whitespace. -/
def pyStrip (s : List Char) : List Char :=
  ((s.dropWhile isPySpace).reverse.dropWhile isPySpace).reverse

/-! ## Unicode normalization model -/

/-- Models `unicodedata.category(c) == "Mn"` (nonspacing combining marks) on the
combining-diacritical-marks block, which contains every mark produced by
`nfdChar`. -/
def isMn (c : Char) : Bool :=
  decide (0x300 ≤ c.toNat) && decide (c.toNat ≤ 0x36F)

/-- Models `unicodedata.normalize("NFD", ·)` per character, restricted to the
precomposed Latin letters relevant to Portuguese PIX fields. ASCII characters
have no canonical decomposition and are returned unchanged; characters outside
the table are also passed through unchanged. -/
def nfdChar (c : Char) : List Char :=
  if c.toNat < 0x80 then [c]
  else if c = 'á' then ['a', '́'] else if c = 'Á' then ['A', '́']
  else if c = 'é' then ['e', '́'] else if c = 'É' then ['E', '́']
  else if c = 'í' then ['i', '́'] else if c = 'Í' then ['I', '́']
  else if c = 'ó' then ['o', '́'] else if c = 'Ó' then ['O', '́']
  else if c = 'ú' then ['u', '́'] else if c = 'Ú' then ['U', '́']
  else if c = 'à' then ['a', '̀'] else if c = 'À' then ['A', '̀']
  else if c = 'â' then ['a', '̂'] else if c = 'Â' then ['A', '̂']
  else if c = 'ê' then ['e', '̂'] else if c = 'Ê' then ['E', '̂']
  else if c = 'ô' then ['o', '̂'] else if c = 'Ô' then ['O', '̂']
  else if c = 'ã' then ['a', '̃'] else if c = 'Ã' then ['A', '̃']
  else if c = 'õ' then ['o', '̃'] else if c = 'Õ' then ['O', '̃']
  else if c = 'ç' then ['c', '̧'] else if c = 'Ç' then ['C', '̧']
  else if c = 'ü' then ['u', '̈'] else if c = 'Ü' then ['U', '̈']
  else [c]

/-- Models `unicodedata.normalize("NFD", text)` over a whole string. -/
def nfdStr (t : List Char) : List Char :=
  t.foldr (fun c acc => nfdChar c ++ acc) []

/-! ## Whitespace splitting (Python `str.split()` / `" ".join`) -/

/-- One `foldr` step of whitespace splitting: the state is the word currently
being accumulated (to the right of the cursor) and the finished words. -/
def splitStep (c : Char) (st : List Char × List (List Char)) :
    List Char × List (List Char) :=
  if isPySpace c then ([], if st.1 = [] then st.2 else st.1 :: st.2)
  else (c :: st.1, st.2)

/-- Fold of `splitStep` over a string. -/
def splitFold (l : List Char) : List Char × List (List Char) :=
  l.foldr splitStep ([], [])

/-- Models Python `str.split()` with no argument: the maximal whitespace-free
nonempty chunks, in order. -/
def splitWs (l : List Char) : List (List Char) :=
  if (splitFold l).1 = [] then (splitFold l).2 else (splitFold l).1 :: (splitFold l).2

/-- Models Python `" ".join(words)`. -/
def joinSp : List (List Char) → List Char
  | [] => []
  | [w] => w
  | w :: rest => w ++ ' ' :: joinSp rest

/-- The shape of every `splitWs` output: each word is nonempty and
whitespace-free. -/
def goodWords (ws : List (List Char)) : Prop :=
  ∀ w ∈ ws, w ≠ [] ∧ ∀ c ∈ w, isPySpace c = false

/-! ## normalize_text / normalize_pix_key (core/payload.py) -/

/-- Function `normalize_text(text)` of `core/payload.py`: NFD-decompose, drop nonspacing
marks, keep only `[A-Za-z0-9\s]`, uppercase, then collapse whitespace via
`" ".join(text.split())`. -/
def normalize_text (text : List Char) : List Char :=
  if text = [] then []
  else
    let text_nfd := nfdStr text
    let text_without_accents := text_nfd.filter (fun c => !(isMn c))
    let text_clean := text_without_accents.filter isWordKeep
    let text_upper := text_clean.map pyUpperChar
    joinSp (splitWs text_upper)

/-- Function `normalize_pix_key(chave)` of `core/payload.py`: detect the key kind by
structural heuristics and normalize accordingly. -/
def normalize_pix_key (chave : List Char) : List Char :=
  if chave = [] then chave
  else
    let chave := pyStrip chave
    if chave.contains '@' then chave.map pyLowerChar
    else
      let only_numbers := chave.filter isDigitChar
      if only_numbers.length = 13 ∧ only_numbers.take 2 = ['5', '5'] then
        '+' :: only_numbers
      else if chave.getD 0 ' ' = '+' ∧ only_numbers.length = 13 then chave
      else if only_numbers.length = 11 then
        if only_numbers.getD 0 ' ' = '0' then only_numbers
        else if chave.contains '.' ∨ chave.contains '-' then only_numbers
        else if only_numbers.length = 11 ∧ only_numbers.getD 2 ' ' ∈ ['9', '8', '7'] then
          '+' :: '5' :: '5' :: only_numbers
        else only_numbers
      else if only_numbers.length = 14 then only_numbers
      else chave

/-! ## TLV fields and payload assembly (core/payload.py) -/

/-- Python `f"{n:02d}"`: the decimal digits of `n`, zero-padded on the left to
at least two characters (three or more characters when `n > 99`). -/
def fmt02d (n : Nat) : List Char :=
  let d := Nat.toDigits 10 n
  if d.length < 2 then '0' :: d else d

/-- Function `_emv_field_bytes(tag, value)` of `core/payload.py`:
`f"{tag}{len(value.encode("utf-8")):02d}".encode("utf-8") + value.encode("utf-8")`. -/
def emv_field_bytes (tag value : List Char) : List Nat :=
  strUtf8 (tag ++ fmt02d (strUtf8 value).length) ++ strUtf8 value

/-- Function `_emv_field_str(tag, value)` of `core/payload.py`: the same field as a
string (its UTF-8 encoding is `emv_field_bytes`, see `strUtf8_emv_field`). -/
def emv_field (tag value : List Char) : List Char :=
  tag ++ fmt02d (strUtf8 value).length ++ value

/-- The `if len(...) > 25: ... = ...[:25]` truncation applied to the merchant
name in `build_pix_payload`. -/
def truncate25 (l : List Char) : List Char :=
  if l.length > 25 then l.take 25 else l

/-- The `if len(...) > 15: ... = ...[:15]` truncation applied to the merchant
city in `build_pix_payload`. -/
def truncate15 (l : List Char) : List Char :=
  if l.length > 15 then l.take 15 else l

/-- Models Python `f"{valor:.2f}"` for a positive amount represented exactly as
integer cents (the only amounts the claims exercise; `build_pix_payload`
rejects `valor <= 0` before formatting). -/
def fmtCents (v : Int) : List Char :=
  Nat.toDigits 10 (v.toNat / 100) ++ '.' :: fmt02d (v.toNat % 100)

/-- Check `valor is not None and valor <= 0` of `build_pix_payload`. -/
def valorNonpos : Option Int → Bool
  | some v => decide (v ≤ 0)
  | none => false

/-- Check `txid and len(txid) > 25` of `build_pix_payload` (Python truthiness: `None`
and the empty string are falsy). -/
def txidTooLong : Option (List Char) → Bool
  | some t => !t.isEmpty && decide (25 < t.length)
  | none => false

/-- The optional description subfield of the field-26 block:
`if description: normalized = normalize_text(description)[:72]; if normalized: ...`. -/
def descPart : Option (List Char) → List Char
  | some d =>
      if d = [] then []
      else
        let nd := (normalize_text d).take 72
        if nd = [] then [] else emv_field ['0', '2'] nd
  | none => []

/-- The optional field-62 block:
`if txid: normalized = normalize_text(txid)[:25]; if normalized: sub = field("05", ...); "62" + len + sub`. -/
def txidPart : Option (List Char) → List Char
  | some t =>
      if t = [] then []
      else
        let nt := (normalize_text t).take 25
        if nt = [] then []
        else
          let sub62 := emv_field ['0', '5'] nt
          '6' :: '2' :: fmt02d (strUtf8 sub62).length ++ sub62
  | none => []

/-- The optional field 54: `if valor is not None: field("54", f"{valor:.2f}")`. -/
def amountPart : Option Int → List Char
  | some v => emv_field ['5', '4'] (fmtCents v)
  | none => []

/-- The concatenation of the TLV `parts` list built by `build_pix_payload`
(`b"".join(parts)`, as a string): fields 00, 01, 26, 52, 53, optional 54, 58,
59, 60, optional 62, in source order. -/
def payloadParts (chave_pix merchant_name merchant_city : List Char)
    (valor : Option Int) (txid : Option (List Char))
    (description : Option (List Char)) (dynamic : Bool) : List Char :=
  let chave_pix_normalizada := normalize_pix_key chave_pix
  let p00 := emv_field ['0', '0'] ['0', '1']
  let p01 := emv_field ['0', '1'] (if dynamic then ['1', '2'] else ['1', '1'])
  let mai := emv_field ['0', '0'] "BR.GOV.BCB.PIX".data ++
    emv_field ['0', '1'] chave_pix_normalizada ++ descPart description
  let p26 := '2' :: '6' :: fmt02d (strUtf8 mai).length ++ mai
  let p52 := emv_field ['5', '2'] "0000".data
  let p53 := emv_field ['5', '3'] "986".data
  let p58 := emv_field ['5', '8'] "BR".data
  p00 ++ p01 ++ p26 ++ p52 ++ p53 ++ amountPart valor ++ p58 ++
    emv_field ['5', '9'] (truncate25 (normalize_text merchant_name)) ++
    emv_field ['6', '0'] (truncate15 (normalize_text merchant_city)) ++ txidPart txid

/-- Variable `payload_bytes_no_crc` of `build_pix_payload` (as a string):
`b"".join(parts) + b"6304"`. -/
def payloadNoCrc (chave_pix merchant_name merchant_city : List Char)
    (valor : Option Int) (txid : Option (List Char))
    (description : Option (List Char)) (dynamic : Bool) : List Char :=
  payloadParts chave_pix merchant_name merchant_city valor txid description dynamic ++
    "6304".data

/-- Function `build_pix_payload` of `core/payload.py`. Python `raise ValueError(msg)` is
modelled as `Except.error msg`; the returned payload string is a `List Char`
(the source decodes the UTF-8 byte concatenation it built, which round-trips).
The two post-normalization emptiness checks are hoisted in front of the pure
`parts` assembly; the source performs them in the same relative order between
appending field 58 and appending fields 59/60, which is observationally the
same because the assembly has no effects. -/
def build_pix_payload (chave_pix merchant_name merchant_city : List Char)
    (valor : Option Int) (txid : Option (List Char))
    (description : Option (List Char)) (dynamic : Bool) :
    Except String (List Char) :=
  if chave_pix = [] then .error "chave_pix é obrigatório"
  else if merchant_name = [] ∨ merchant_city = [] then
    .error "merchant_name e merchant_city são obrigatórios"
  else if valorNonpos valor then .error "valor deve ser positivo"
  else if txidTooLong txid then .error "txid deve ter no máximo 25 caracteres"
  else if truncate25 (normalize_text merchant_name) = [] then
    .error "merchant_name não pode estar vazio após normalização"
  else if truncate15 (normalize_text merchant_city) = [] then
    .error "merchant_city não pode estar vazio após normalização"
  else
    .ok (payloadNoCrc chave_pix merchant_name merchant_city valor txid description dynamic
      ++ crc16 (strUtf8
        (payloadNoCrc chave_pix merchant_name merchant_city valor txid description dynamic)))

/-- Decidable substring test (`needle in haystack` of Python). -/
def containsSub : List Char → List Char → Bool
  | [], needle => needle.isEmpty
  | h :: t, needle => needle.isPrefixOf (h :: t) || containsSub t needle

/-! ## CRC lemmas -/

/-- Encoding `strUtf8` distributes over concatenation. -/
theorem strUtf8_append (a b : List Char) :
    strUtf8 (a ++ b) = strUtf8 a ++ strUtf8 b := by
  induction a with
  | nil => rfl
  | cons c t ih => simp [strUtf8, List.foldr_cons] at ih ⊢; simp [ih]

/-- Applying `hexUpperChar` to a value below 16 gives an uppercase hex digit. -/
theorem hexUpperChar_isHex (m : Nat) (h : m < 16) :
    isHexUpperDigit (hexUpperChar m) = true := by
  interval_cases m <;> decide

/-- Each `crc16` round result is below `2 ^ 16` (the source masks with `0xFFFF`). -/
theorem crc16Round_lt (c : Nat) : crc16Round c < 2 ^ 16 := by
  unfold crc16Round
  split <;> exact Nat.mod_lt _ (by norm_num)

/-- Each per-byte step of `crc16` results in a register below `2 ^ 16`. -/
theorem crc16Byte_lt (c b : Nat) : crc16Byte c b < 2 ^ 16 := by
  show rounds crc16Round 8 (c ^^^ (b <<< 8)) < 2 ^ 16
  simp only [rounds]
  exact crc16Round_lt _

/-- The CRC register of `crc16` stays below `2 ^ 16` for every input. -/
theorem crc16Reg_lt (data : List Nat) : crc16Reg data < 2 ^ 16 := by
  have : ∀ (t : List Nat) (c : Nat), c < 2 ^ 16 → List.foldl crc16Byte c t < 2 ^ 16 := by
    intro t
    induction t with
    | nil => intro c hc; simpa using hc
    | cons b r ih =>
        intro c _
        rw [List.foldl_cons]
        exact ih _ (crc16Byte_lt _ _)
  exact this data INIT (by decide)

/-- XOR with a value below `2 ^ n` commutes with reduction modulo `2 ^ n`. -/
theorem xor_mod_two_pow (a p n : Nat) (hp : p < 2 ^ n) :
    (a ^^^ p) % 2 ^ n = a % 2 ^ n ^^^ p := by
  apply Nat.eq_of_testBit_eq
  intro i
  simp only [Nat.testBit_mod_two_pow, Nat.testBit_xor]
  by_cases h : i < n
  · simp [h]
  · have hpi : p.testBit i = false :=
      Nat.testBit_lt_two_pow
        (lt_of_lt_of_le hp (Nat.pow_le_pow_right (by norm_num) (le_of_not_lt h)))
    simp [h, hpi]

/-- The round functions of the two CRC implementations agree: masking after the
polynomial XOR (`payload.py`) equals masking before it (`crc16.py`), because the
polynomial fits in 16 bits. -/
theorem crc16Round_eq_ccittRound (c : Nat) : crc16Round c = ccittRound c := by
  unfold crc16Round ccittRound
  split
  · exact xor_mod_two_pow _ POLY 16 (by decide)
  · rfl

/-- Iterating pointwise-equal functions gives equal results. -/
theorem rounds_congr (f g : Nat → Nat) (h : ∀ c, f c = g c) :
    ∀ n c, rounds f n c = rounds g n c
  | 0, _ => rfl
  | n + 1, c => by
      rw [rounds, rounds, h]
      exact rounds_congr f g h n _

/-- The two CRC registers agree on every byte sequence. -/
theorem crc16Reg_eq_ccittReg (data : List Nat) : crc16Reg data = ccittReg data := by
  have hbyte : ∀ c b, crc16Byte c b = ccittByte c b := fun c b =>
    rounds_congr _ _ crc16Round_eq_ccittRound 8 _
  have hfold : ∀ (t : List Nat) (c : Nat),
      List.foldl crc16Byte c t = List.foldl ccittByte c t := by
    intro t
    induction t with
    | nil => intro c; rfl
    | cons b r ih =>
        intro c
        rw [List.foldl_cons, List.foldl_cons, hbyte]
        exact ih _
  exact hfold data INIT

/-- C10: the two CRC implementations in the repository are extensionally equal:
for every byte sequence, `crc16_ccitt` in `core/crc16.py` and `crc16` in
`core/payload.py` return the same 4-character uppercase hex string. -/
theorem crc16_impls_agree (data : List Nat) : crc16 data = crc16_ccitt data := by
  unfold crc16 crc16_ccitt
  rw [crc16Reg_eq_ccittReg]

/-- C2: `crc16` implements CRC-16/CCITT-FALSE and formats the register as a
4-character uppercase zero-padded hex string; on the bytes of the ASCII string
"123456789" it returns "29B1" (the standard test vector), and on every input
the result has exactly 4 characters, all uppercase hex digits, formatted from a
register below `2 ^ 16`. -/
theorem crc16_ccitt_false_spec :
    crc16 (strUtf8 "123456789".data) = "29B1".data ∧
    ∀ data : List Nat, (crc16 data).length = 4 ∧
      (crc16 data).all isHexUpperDigit = true ∧ crc16Reg data < 2 ^ 16 := by
  constructor
  · decide
  · intro data
    refine ⟨rfl, ?_, crc16Reg_lt data⟩
    show (fmt04X (crc16Reg data)).all isHexUpperDigit = true
    unfold fmt04X
    simp only [List.all_cons, List.all_nil, Bool.and_true]
    rw [hexUpperChar_isHex _ (Nat.mod_lt _ (by norm_num)),
      hexUpperChar_isHex _ (Nat.mod_lt _ (by norm_num)),
      hexUpperChar_isHex _ (Nat.mod_lt _ (by norm_num)),
      hexUpperChar_isHex _ (Nat.mod_lt _ (by norm_num))]
    rfl

/-! ## Key normalization (claims C7, C8) -/

/-- Filtering by a predicate that is false on whitespace ignores `str.strip()`. -/
theorem filter_pyStrip (p : Char → Bool) (h : ∀ c, isPySpace c = true → p c = false)
    (s : List Char) : (pyStrip s).filter p = s.filter p := by
  have fd : ∀ l : List Char, (l.dropWhile isPySpace).filter p = l.filter p := by
    intro l
    conv_rhs => rw [← List.takeWhile_append_dropWhile isPySpace l]
    rw [List.filter_append]
    have : (l.takeWhile isPySpace).filter p = [] := by
      rw [List.filter_eq_nil_iff]
      intro a ha
      simp [h a (List.mem_takeWhile_imp ha)]
    rw [this, List.nil_append]
  unfold pyStrip
  rw [List.filter_reverse, fd, List.filter_reverse, List.reverse_reverse, fd]

/-- Whitespace characters are not decimal digits. -/
theorem space_not_digit (c : Char) (h : isPySpace c = true) : isDigitChar c = false := by
  simp only [isPySpace, Bool.or_eq_true, Bool.and_eq_true, decide_eq_true_eq,
    beq_iff_eq] at h
  simp only [isDigitChar, Bool.and_eq_true, decide_eq_true_eq, Bool.and_eq_false_iff,
    decide_eq_false_iff_not]
  omega

/-- C7: every input classified as a tax id (11 digits that fail the phone
heuristic, or 14 digits) is normalized to exactly its digits in order, with
formatting removed and leading zeros preserved; in particular
`"000.000.001-91"` becomes `"00000000191"`. -/
theorem taxid_digits_preserved (chave : List Char)
    (hne : chave ≠ [])
    (hat : (pyStrip chave).contains '@' = false)
    (hcls :
      (((pyStrip chave).filter isDigitChar).length = 11 ∧
        (((pyStrip chave).filter isDigitChar).getD 0 ' ' = '0' ∨
         (pyStrip chave).contains '.' = true ∨ (pyStrip chave).contains '-' = true ∨
         ((pyStrip chave).filter isDigitChar).getD 2 ' ' ∉ (['9', '8', '7'] : List Char))) ∨
      ((pyStrip chave).filter isDigitChar).length = 14) :
    normalize_pix_key chave = chave.filter isDigitChar ∧
    normalize_pix_key "000.000.001-91".data = "00000000191".data := by
  refine ⟨?_, by decide⟩
  rw [← filter_pyStrip isDigitChar space_not_digit]
  unfold normalize_pix_key
  rw [if_neg hne]
  simp only [hat, Bool.false_eq_true, if_false]
  rcases hcls with ⟨h11, hsub⟩ | h14
  · rw [if_neg (by simp [h11]), if_neg (by simp [h11]), if_pos h11]
    by_cases h0 : ((pyStrip chave).filter isDigitChar).getD 0 ' ' = '0'
    · rw [if_pos h0]
    · rw [if_neg h0]
      by_cases hpd : (pyStrip chave).contains '.' = true ∨ (pyStrip chave).contains '-' = true
      · rw [if_pos (by simpa using hpd)]
      · rw [if_neg (by simpa using hpd)]
        have h3 : ((pyStrip chave).filter isDigitChar).getD 2 ' '
            ∉ (['9', '8', '7'] : List Char) := by
          rcases hsub with h | h | h | h
          · exact absurd h h0
          · exact absurd (Or.inl h) hpd
          · exact absurd (Or.inr h) hpd
          · exact h
        rw [if_neg (fun hc => h3 hc.2)]
  · rw [if_neg (by simp [h14]), if_neg (by simp [h14]), if_neg (by simp [h14]), if_pos h14]

/-- Witness for `taxid_digits_preserved` at the concrete tax id
`"000.000.001-91"`. -/
theorem taxid_digits_preserved_witness :
    normalize_pix_key "000.000.001-91".data = "000.000.001-91".data.filter isDigitChar ∧
    normalize_pix_key "000.000.001-91".data = "00000000191".data :=
  taxid_digits_preserved "000.000.001-91".data (by decide) (by decide)
    (Or.inl ⟨by decide, Or.inl (by decide)⟩)

/-- C8: `"11999999999"` is normalized to `"+5511999999999"`, and
`"+5511999999999"` is returned unchanged; the 11-digit input is classified as a
phone because its first digit is non-zero, it contains neither `.` nor `-`, and
its third digit is one of 7, 8, 9. -/
theorem phone_key_normalization :
    normalize_pix_key "11999999999".data = "+5511999999999".data ∧
    normalize_pix_key "+5511999999999".data = "+5511999999999".data ∧
    ("11999999999".data.filter isDigitChar).length = 11 ∧
    ("11999999999".data.filter isDigitChar).getD 0 ' ' ≠ '0' ∧
    "11999999999".data.contains '.' = false ∧
    "11999999999".data.contains '-' = false ∧
    ("11999999999".data.filter isDigitChar).getD 2 ' ' ∈ (['9', '8', '7'] : List Char) := by
  decide

/-! ## TLV length encoding (claim C3) -/

/-- The UTF-8 bytes of an EMV field string are the source's `_emv_field_bytes`. -/
theorem strUtf8_emv_field (tag value : List Char) :
    strUtf8 (emv_field tag value) = emv_field_bytes tag value := by
  unfold emv_field emv_field_bytes
  rw [List.append_assoc, strUtf8_append, strUtf8_append, strUtf8_append, List.append_assoc]

/-- For values of at most 99 bytes, `f"{n:02d}"` yields exactly two decimal
digits whose value is `n`. -/
theorem fmt02d_spec (n : Nat) (h : n ≤ 99) :
    (fmt02d n).length = 2 ∧ (fmt02d n).all isDigitChar = true ∧
    digitVal ((fmt02d n).getD 0 ' ') * 10 + digitVal ((fmt02d n).getD 1 ' ') = n := by
  interval_cases n <;> decide

/-- C3: under the precondition that a field value is at most 99 UTF-8 bytes,
the emitted TLV length component is exactly two ASCII decimal digits whose
value equals the UTF-8 byte count of the value, and the field is the
concatenation tag ++ length ++ value (in bytes, `_emv_field_bytes`). -/
theorem emv_field_two_digit_length (tag value : List Char)
    (h : (strUtf8 value).length ≤ 99) :
    (fmt02d (strUtf8 value).length).length = 2 ∧
    (fmt02d (strUtf8 value).length).all isDigitChar = true ∧
    digitVal ((fmt02d (strUtf8 value).length).getD 0 ' ') * 10 +
      digitVal ((fmt02d (strUtf8 value).length).getD 1 ' ') = (strUtf8 value).length ∧
    emv_field tag value = tag ++ fmt02d (strUtf8 value).length ++ value ∧
    strUtf8 (emv_field tag value) = emv_field_bytes tag value := by
  have hs := fmt02d_spec _ h
  exact ⟨hs.1, hs.2.1, hs.2.2, rfl, strUtf8_emv_field tag value⟩

/-- Witness for `emv_field_two_digit_length` at tag 59 with value
"LOJA TESTE" (10 bytes, emitted length "10"). -/
theorem emv_field_two_digit_length_witness :
    (strUtf8 "LOJA TESTE".data).length ≤ 99 ∧
    ((fmt02d (strUtf8 "LOJA TESTE".data).length).length = 2 ∧
     (fmt02d (strUtf8 "LOJA TESTE".data).length).all isDigitChar = true ∧
     digitVal ((fmt02d (strUtf8 "LOJA TESTE".data).length).getD 0 ' ') * 10 +
       digitVal ((fmt02d (strUtf8 "LOJA TESTE".data).length).getD 1 ' ') =
         (strUtf8 "LOJA TESTE".data).length ∧
     emv_field "59".data "LOJA TESTE".data =
       "59".data ++ fmt02d (strUtf8 "LOJA TESTE".data).length ++ "LOJA TESTE".data ∧
     strUtf8 (emv_field "59".data "LOJA TESTE".data) =
       emv_field_bytes "59".data "LOJA TESTE".data) :=
  ⟨by decide, emv_field_two_digit_length "59".data "LOJA TESTE".data (by decide)⟩

/-! ## Text normalization (claims C9, C5) -/


theorem char_toNat_ofNat (n : Nat) (h : n < 55296) : (Char.ofNat n).toNat = n := by
  unfold Char.ofNat
  rw [dif_pos (Or.inl (by omega))]
  simp [Char.toNat, Char.ofNatAux, UInt32.toNat, BitVec.toNat_ofNatLt]

theorem splitFold_good (l : List Char) :
    (∀ c ∈ (splitFold l).1, isPySpace c = false) ∧ goodWords (splitFold l).2 := by
  induction l with
  | nil => exact ⟨by simp [splitFold], by intro w hw; simp [splitFold] at hw⟩
  | cons a t ih =>
      obtain ⟨ih1, ih2⟩ := ih
      have hstep : splitFold (a :: t) = splitStep a (splitFold t) := rfl
      rw [hstep]
      unfold splitStep
      by_cases ha : isPySpace a = true
      · rw [if_pos ha]
        refine ⟨by simp, ?_⟩
        by_cases hf : (splitFold t).1 = []
        · rw [if_pos hf]; exact ih2
        · rw [if_neg hf]
          intro w hw
          rcases List.mem_cons.mp hw with h | h
          · exact h ▸ ⟨hf, ih1⟩
          · exact ih2 w h
      · rw [if_neg ha]
        refine ⟨?_, ih2⟩
        intro c hc
        rcases List.mem_cons.mp hc with h | h
        · exact h ▸ (Bool.eq_false_iff.mpr ha)
        · exact ih1 c h

theorem splitFold_pred (P : Char → Prop) (l : List Char) (hl : ∀ c ∈ l, P c) :
    (∀ c ∈ (splitFold l).1, P c) ∧ ∀ w ∈ (splitFold l).2, ∀ c ∈ w, P c := by
  induction l with
  | nil => exact ⟨by simp [splitFold], by intro w hw; simp [splitFold] at hw⟩
  | cons a t ih =>
      have hl' : ∀ c ∈ t, P c := fun c hc => hl c (List.mem_cons_of_mem a hc)
      obtain ⟨ih1, ih2⟩ := ih hl'
      have hstep : splitFold (a :: t) = splitStep a (splitFold t) := rfl
      rw [hstep]
      unfold splitStep
      by_cases ha : isPySpace a = true
      · rw [if_pos ha]
        refine ⟨by simp, ?_⟩
        by_cases hf : (splitFold t).1 = []
        · rw [if_pos hf]; exact ih2
        · rw [if_neg hf]
          intro w hw
          rcases List.mem_cons.mp hw with h | h
          · exact h ▸ ih1
          · exact ih2 w h
      · rw [if_neg ha]
        refine ⟨?_, ih2⟩
        intro c hc
        rcases List.mem_cons.mp hc with h | h
        · exact h ▸ hl a (List.mem_cons_self a t)
        · exact ih1 c h

theorem splitWs_good (l : List Char) : goodWords (splitWs l) := by
  obtain ⟨h1, h2⟩ := splitFold_good l
  unfold splitWs
  by_cases hf : (splitFold l).1 = []
  · rw [if_pos hf]; exact h2
  · rw [if_neg hf]
    intro w hw
    rcases List.mem_cons.mp hw with h | h
    · exact h ▸ ⟨hf, h1⟩
    · exact h2 w h

theorem splitWs_pred (P : Char → Prop) (l : List Char) (hl : ∀ c ∈ l, P c) :
    ∀ w ∈ splitWs l, ∀ c ∈ w, P c := by
  obtain ⟨h1, h2⟩ := splitFold_pred P l hl
  unfold splitWs
  by_cases hf : (splitFold l).1 = []
  · rw [if_pos hf]; exact h2
  · rw [if_neg hf]
    intro w hw
    rcases List.mem_cons.mp hw with h | h
    · exact h ▸ h1
    · exact h2 w h

theorem mem_joinSp (ws : List (List Char)) (c : Char) (hc : c ∈ joinSp ws) :
    c = ' ' ∨ ∃ w ∈ ws, c ∈ w := by
  induction ws with
  | nil => simp [joinSp] at hc
  | cons w rest ih =>
      cases rest with
      | nil =>
          right
          exact ⟨w, List.mem_cons_self w [], hc⟩
      | cons r rs =>
          have : joinSp (w :: r :: rs) = w ++ ' ' :: joinSp (r :: rs) := rfl
          rw [this] at hc
          rcases List.mem_append.mp hc with h | h
          · exact Or.inr ⟨w, List.mem_cons_self w (r :: rs), h⟩
          · rcases List.mem_cons.mp h with h | h
            · exact Or.inl h
            · rcases ih h with h | ⟨w2, hw2, hcw⟩
              · exact Or.inl h
              · exact Or.inr ⟨w2, List.mem_cons_of_mem w hw2, hcw⟩


theorem splitFold_nonspace_append (w t : List Char) (hw : ∀ c ∈ w, isPySpace c = false) :
    splitFold (w ++ t) = (w ++ (splitFold t).1, (splitFold t).2) := by
  induction w with
  | nil => simp
  | cons a r ih =>
      have ha : isPySpace a = false := hw a (List.mem_cons_self a r)
      have hr : ∀ c ∈ r, isPySpace c = false := fun c hc => hw c (List.mem_cons_of_mem a hc)
      have hstep : splitFold ((a :: r) ++ t) = splitStep a (splitFold (r ++ t)) := rfl
      rw [hstep, ih hr]
      unfold splitStep
      rw [if_neg (by simp [ha])]
      simp

theorem splitFold_joinSp :
    ∀ ws : List (List Char), goodWords ws →
      splitFold (joinSp ws) = (ws.headD [], ws.tail)
  | [], _ => rfl
  | [w], hg => by
      have hw := (hg w (List.mem_cons_self w [])).2
      have h := splitFold_nonspace_append w [] hw
      simpa [joinSp, splitFold] using h
  | w :: r :: rs, hg => by
      have hw := (hg w (List.mem_cons_self w (r :: rs))).2
      have hg' : goodWords (r :: rs) := fun x hx => hg x (List.mem_cons_of_mem w hx)
      have hr : r ≠ [] := (hg' r (List.mem_cons_self r rs)).1
      have hjoin : joinSp (w :: r :: rs) = w ++ ' ' :: joinSp (r :: rs) := rfl
      rw [hjoin, splitFold_nonspace_append w _ hw]
      have hs : splitFold (' ' :: joinSp (r :: rs)) =
          splitStep ' ' (splitFold (joinSp (r :: rs))) := rfl
      rw [hs, splitFold_joinSp (r :: rs) hg']
      unfold splitStep
      rw [if_pos (by decide)]
      simp [hr]

theorem splitWs_joinSp (ws : List (List Char)) (hg : goodWords ws) :
    splitWs (joinSp ws) = ws := by
  unfold splitWs
  rw [splitFold_joinSp ws hg]
  cases ws with
  | nil => rfl
  | cons w rest =>
      have hw : w ≠ [] := (hg w (List.mem_cons_self w rest)).1
      rw [if_neg (by simpa using hw)]
      simp


theorem pyUpperChar_class (c : Char) (hk : isWordKeep c = true) :
    isUpperAlnum (pyUpperChar c) = true ∨ isPySpace (pyUpperChar c) = true := by
  simp only [isWordKeep, isDigitChar, isPySpace, Bool.or_eq_true, Bool.and_eq_true,
    decide_eq_true_eq] at hk
  by_cases h : 97 ≤ c.toNat ∧ c.toNat ≤ 122
  · left
    have hto : (pyUpperChar c).toNat = c.toNat - 32 := by
      unfold pyUpperChar
      rw [if_pos h]
      exact char_toNat_ofNat _ (by omega)
    simp only [isUpperAlnum, isDigitChar, Bool.or_eq_true, Bool.and_eq_true,
      decide_eq_true_eq, hto]
    omega
  · have hfix : pyUpperChar c = c := by unfold pyUpperChar; rw [if_neg h]
    rw [hfix]
    simp only [isUpperAlnum, isDigitChar, isPySpace, Bool.or_eq_true, Bool.and_eq_true,
      decide_eq_true_eq]
    omega

/-- Every character of `normalize_text`'s output is an uppercase ASCII
alphanumeric or a single space. -/
theorem normalize_text_chars (t : List Char) :
    ∀ c ∈ normalize_text t, isUpperAlnum c = true ∨ c = ' ' := by
  intro c hc
  unfold normalize_text at hc
  by_cases ht : t = []
  · rw [if_pos ht] at hc; simp at hc
  · rw [if_neg ht] at hc
    simp only at hc
    rcases mem_joinSp _ _ hc with h | ⟨w, hw, hcw⟩
    · exact Or.inr h
    · left
      have hP : ∀ x ∈ (((nfdStr t).filter (fun c => !(isMn c))).filter isWordKeep).map
          pyUpperChar, isUpperAlnum x = true ∨ isPySpace x = true := by
        intro x hx
        rcases List.mem_map.mp hx with ⟨x0, hx0, rfl⟩
        exact pyUpperChar_class x0 (List.of_mem_filter hx0)
      have hcls := splitWs_pred _ _ hP w hw c hcw
      have hns := (splitWs_good _ w hw).2 c hcw
      rcases hcls with h | h
      · exact h
      · rw [hns] at h; exact absurd h (by simp)


theorem upperAlnum_or_space_ascii (c : Char) (h : isUpperAlnum c = true ∨ c = ' ') :
    c.toNat < 128 := by
  rcases h with h | rfl
  · simp only [isUpperAlnum, isDigitChar, Bool.or_eq_true, Bool.and_eq_true,
      decide_eq_true_eq] at h
    omega
  · decide

theorem nfdChar_ascii (c : Char) (h : c.toNat < 128) : nfdChar c = [c] := by
  unfold nfdChar
  rw [if_pos h]

theorem nfdStr_ascii (l : List Char) (h : ∀ c ∈ l, c.toNat < 128) : nfdStr l = l := by
  induction l with
  | nil => rfl
  | cons a t ih =>
      have hstep : nfdStr (a :: t) = nfdChar a ++ nfdStr t := rfl
      rw [hstep, nfdChar_ascii a (h a (List.mem_cons_self a t)),
        ih (fun c hc => h c (List.mem_cons_of_mem a hc))]
      rfl

theorem isMn_ascii (c : Char) (h : c.toNat < 128) : isMn c = false := by
  simp only [isMn, Bool.and_eq_false_iff, decide_eq_false_iff_not]
  omega

theorem isWordKeep_of_out (c : Char) (h : isUpperAlnum c = true ∨ c = ' ') :
    isWordKeep c = true := by
  rcases h with h | rfl
  · simp only [isUpperAlnum, isDigitChar, Bool.or_eq_true, Bool.and_eq_true,
      decide_eq_true_eq] at h
    simp only [isWordKeep, isDigitChar, Bool.or_eq_true, Bool.and_eq_true,
      decide_eq_true_eq]
    omega
  · decide

theorem pyUpperChar_fix (c : Char) (h : isUpperAlnum c = true ∨ c = ' ') :
    pyUpperChar c = c := by
  have : ¬(97 ≤ c.toNat ∧ c.toNat ≤ 122) := by
    rcases h with h | rfl
    · simp only [isUpperAlnum, isDigitChar, Bool.or_eq_true, Bool.and_eq_true,
        decide_eq_true_eq] at h
      omega
    · decide
  unfold pyUpperChar
  rw [if_neg this]

theorem map_fix (f : Char → Char) (l : List Char) (h : ∀ c ∈ l, f c = c) :
    l.map f = l := by
  induction l with
  | nil => rfl
  | cons a t ih =>
      rw [List.map_cons, h a (List.mem_cons_self a t),
        ih (fun c hc => h c (List.mem_cons_of_mem a hc))]

/-- C9: `normalize_text` is idempotent, and in particular fixes the
already-normalized field "LOJA TESTE". -/
theorem normalize_text_idempotent :
    (∀ t, normalize_text (normalize_text t) = normalize_text t) ∧
    normalize_text "LOJA TESTE".data = "LOJA TESTE".data := by
  refine ⟨?_, by decide⟩
  intro t
  have hstep : ∀ l : List Char, l ≠ [] → normalize_text l =
      joinSp (splitWs ((((nfdStr l).filter (fun c => !(isMn c))).filter
        isWordKeep).map pyUpperChar)) := by
    intro l hl
    unfold normalize_text
    rw [if_neg hl]
  by_cases hu : normalize_text t = []
  · rw [hu]; rfl
  · have ht : t ≠ [] := by
      intro h
      apply hu
      rw [h]
      rfl
    have hcls := normalize_text_chars t
    have hascii : ∀ c ∈ normalize_text t, c.toNat < 128 :=
      fun c hc => upperAlnum_or_space_ascii c (hcls c hc)
    have h1 : nfdStr (normalize_text t) = normalize_text t := nfdStr_ascii _ hascii
    have h2 : (normalize_text t).filter (fun c => !(isMn c)) = normalize_text t :=
      List.filter_eq_self.mpr (fun c hc => by rw [isMn_ascii c (hascii c hc)]; rfl)
    have h3 : (normalize_text t).filter isWordKeep = normalize_text t :=
      List.filter_eq_self.mpr (fun c hc => isWordKeep_of_out c (hcls c hc))
    have h4 : (normalize_text t).map pyUpperChar = normalize_text t :=
      map_fix _ _ (fun c hc => pyUpperChar_fix c (hcls c hc))
    have hpipe : (((nfdStr (normalize_text t)).filter (fun c => !(isMn c))).filter
        isWordKeep).map pyUpperChar = normalize_text t := by
      rw [h1, h2, h3, h4]
    rw [hstep _ hu, hpipe, hstep t ht,
      splitWs_joinSp _ (splitWs_good _), ← hstep t ht]


theorem charUtf8_ascii (c : Char) (h : c.toNat < 128) : charUtf8 c = [c.toNat] := by
  simp only [charUtf8]
  rw [if_pos h]

theorem strUtf8_ascii_len (l : List Char) (h : ∀ c ∈ l, c.toNat < 128) :
    (strUtf8 l).length = l.length := by
  induction l with
  | nil => rfl
  | cons a t ih =>
      have hstep : strUtf8 (a :: t) = charUtf8 a ++ strUtf8 t := rfl
      rw [hstep, charUtf8_ascii a (h a (List.mem_cons_self a t)), List.length_append,
        ih (fun c hc => h c (List.mem_cons_of_mem a hc))]
      simp [List.length_cons]
      omega

theorem truncate25_len (l : List Char) : (truncate25 l).length ≤ 25 := by
  unfold truncate25
  split
  · simp
  · omega

theorem truncate15_len (l : List Char) : (truncate15 l).length ≤ 15 := by
  unfold truncate15
  split
  · simp
  · omega

theorem truncate25_isPre (l : List Char) : truncate25 l <+: l := by
  unfold truncate25
  split
  · exact List.take_prefix 25 l
  · exact List.prefix_refl l

theorem truncate15_isPre (l : List Char) : truncate15 l <+: l := by
  unfold truncate15
  split
  · exact List.take_prefix 15 l
  · exact List.prefix_refl l

theorem strUtf8_isPre (a b : List Char) (h : a <+: b) : strUtf8 a <+: strUtf8 b := by
  obtain ⟨r, rfl⟩ := h
  exact ⟨strUtf8 r, (strUtf8_append a r).symm⟩

/-- C5: the name value embedded under tag 59 is at most 25 UTF-8 bytes and the
city value under tag 60 at most 15 UTF-8 bytes; byte length equals character
length (all output characters are single-byte), the truncation keeps a
whole-character prefix of the normalized text (so its UTF-8 bytes are a prefix
of the normalized text's bytes and no code point is split), and a normalized
name longer than 25 bytes is cut to exactly 25 bytes. -/
theorem name_city_byte_truncation (merchant_name merchant_city : List Char) :
    (strUtf8 (truncate25 (normalize_text merchant_name))).length ≤ 25 ∧
    (strUtf8 (truncate15 (normalize_text merchant_city))).length ≤ 15 ∧
    (strUtf8 (truncate25 (normalize_text merchant_name))).length =
      (truncate25 (normalize_text merchant_name)).length ∧
    truncate25 (normalize_text merchant_name) <+: normalize_text merchant_name ∧
    strUtf8 (truncate25 (normalize_text merchant_name)) <+:
      strUtf8 (normalize_text merchant_name) ∧
    (25 < (strUtf8 (normalize_text merchant_name)).length →
      (strUtf8 (truncate25 (normalize_text merchant_name))).length = 25) := by
  have hasciiN : ∀ c ∈ normalize_text merchant_name, c.toNat < 128 :=
    fun c hc => upperAlnum_or_space_ascii c (normalize_text_chars _ c hc)
  have hasciiC : ∀ c ∈ normalize_text merchant_city, c.toNat < 128 :=
    fun c hc => upperAlnum_or_space_ascii c (normalize_text_chars _ c hc)
  have hasciiTN : ∀ c ∈ truncate25 (normalize_text merchant_name), c.toNat < 128 :=
    fun c hc => hasciiN c ((truncate25_isPre _).subset hc)
  have hasciiTC : ∀ c ∈ truncate15 (normalize_text merchant_city), c.toNat < 128 :=
    fun c hc => hasciiC c ((truncate15_isPre _).subset hc)
  have hlenN := strUtf8_ascii_len _ hasciiTN
  have hlenC := strUtf8_ascii_len _ hasciiTC
  refine ⟨?_, ?_, hlenN, truncate25_isPre _, strUtf8_isPre _ _ (truncate25_isPre _), ?_⟩
  · rw [hlenN]; exact truncate25_len _
  · rw [hlenC]; exact truncate15_len _
  · intro hgt
    rw [strUtf8_ascii_len _ hasciiN] at hgt
    rw [hlenN]
    unfold truncate25
    rw [if_pos hgt]
    simp
    omega


/-- Witness for `name_city_byte_truncation`: a 30-character name normalizes to
more than 25 bytes and is truncated to exactly 25 bytes. -/
theorem name_city_byte_truncation_witness :
    25 < (strUtf8 (normalize_text (List.replicate 30 'A'))).length ∧
    (strUtf8 (truncate25 (normalize_text (List.replicate 30 'A')))).length = 25 :=
  ⟨by decide,
    (name_city_byte_truncation (List.replicate 30 'A') ['B']).2.2.2.2.2 (by decide)⟩

/-! ## Payload assembly (claims C1, C4, C6) -/

/-- Incremental CRC evaluation: fold a leading chunk first. -/
theorem crcChunks (c v : Nat) (xs ys : List Nat) (h : xs.foldl crc16Byte c = v) :
    (xs ++ ys).foldl crc16Byte c = ys.foldl crc16Byte v := by
  rw [List.foldl_append, h]

/-- CRC register of the static example payload, evaluated in 16-byte chunks. -/
theorem crc_static_reg :
    crc16Reg (strUtf8 "00020101021126370014BR.GOV.BCB.PIX0115teste@email.com520400005303986540510.005802BR5910LOJA TESTE6009SAO PAULO6304".data) = 23467 := by
  have hb : strUtf8 "00020101021126370014BR.GOV.BCB.PIX0115teste@email.com520400005303986540510.005802BR5910LOJA TESTE6009SAO PAULO6304".data =
      [48,48,48,50,48,49,48,49,48,50,49,49,50,54,51,55] ++
      ([48,48,49,52,66,82,46,71,79,86,46,66,67,66,46,80] ++
      ([73,88,48,49,49,53,116,101,115,116,101,64,101,109,97,105] ++
      ([108,46,99,111,109,53,50,48,52,48,48,48,48,53,51,48] ++
      ([51,57,56,54,53,52,48,53,49,48,46,48,48,53,56,48] ++
      ([50,66,82,53,57,49,48,76,79,74,65,32,84,69,83,84] ++
      ([69,54,48,48,57,83,65,79,32,80,65,85,76,79,54,51] ++
      [48,52])))))) := by decide
  rw [crc16Reg, hb, crcChunks _ 59707 _ _ (by decide), crcChunks _ 15793 _ _ (by decide),
    crcChunks _ 16082 _ _ (by decide), crcChunks _ 29636 _ _ (by decide),
    crcChunks _ 47442 _ _ (by decide), crcChunks _ 53348 _ _ (by decide),
    crcChunks _ 35269 _ _ (by decide)]
  decide

/-- CRC register of the dynamic example payload, evaluated in 16-byte chunks. -/
theorem crc_dynamic_reg :
    crc16Reg (strUtf8 "00020101021226370014BR.GOV.BCB.PIX0115teste@email.com520400005303986540510.005802BR5910LOJA TESTE6009SAO PAULO6304".data) = 22370 := by
  have hb : strUtf8 "00020101021226370014BR.GOV.BCB.PIX0115teste@email.com520400005303986540510.005802BR5910LOJA TESTE6009SAO PAULO6304".data =
      [48,48,48,50,48,49,48,49,48,50,49,50,50,54,51,55] ++
      ([48,48,49,52,66,82,46,71,79,86,46,66,67,66,46,80] ++
      ([73,88,48,49,49,53,116,101,115,116,101,64,101,109,97,105] ++
      ([108,46,99,111,109,53,50,48,52,48,48,48,48,53,51,48] ++
      ([51,57,56,54,53,52,48,53,49,48,46,48,48,53,56,48] ++
      ([50,66,82,53,57,49,48,76,79,74,65,32,84,69,83,84] ++
      ([69,54,48,48,57,83,65,79,32,80,65,85,76,79,54,51] ++
      [48,52])))))) := by decide
  rw [crc16Reg, hb, crcChunks _ 2025 _ _ (by decide), crcChunks _ 21386 _ _ (by decide),
    crcChunks _ 12846 _ _ (by decide), crcChunks _ 62433 _ _ (by decide),
    crcChunks _ 6521 _ _ (by decide), crcChunks _ 51061 _ _ (by decide),
    crcChunks _ 8742 _ _ (by decide)]
  decide

/-- Concrete evaluation: the static example payload built by the source. -/
theorem build_static_eval :
    build_pix_payload "teste@email.com".data "LOJA TESTE".data "SAO PAULO".data
        (some 1000) none none false =
      .ok "00020101021126370014BR.GOV.BCB.PIX0115teste@email.com520400005303986540510.005802BR5910LOJA TESTE6009SAO PAULO63045BAB".data := by
  rw [build_pix_payload, if_neg (by decide), if_neg (by decide), if_neg (by decide),
    if_neg (by decide), if_neg (by decide), if_neg (by decide)]
  have hnc : payloadNoCrc "teste@email.com".data "LOJA TESTE".data "SAO PAULO".data
      (some 1000) none none false =
      "00020101021126370014BR.GOV.BCB.PIX0115teste@email.com520400005303986540510.005802BR5910LOJA TESTE6009SAO PAULO6304".data := by
    decide
  have hcrc : crc16 (strUtf8 "00020101021126370014BR.GOV.BCB.PIX0115teste@email.com520400005303986540510.005802BR5910LOJA TESTE6009SAO PAULO6304".data) = "5BAB".data := by
    rw [crc16, crc_static_reg]
    decide
  rw [hnc, hcrc]
  rw [show "00020101021126370014BR.GOV.BCB.PIX0115teste@email.com520400005303986540510.005802BR5910LOJA TESTE6009SAO PAULO6304".data ++ "5BAB".data =
    "00020101021126370014BR.GOV.BCB.PIX0115teste@email.com520400005303986540510.005802BR5910LOJA TESTE6009SAO PAULO63045BAB".data from by decide]

/-- Concrete evaluation: the dynamic example payload built by the source. -/
theorem build_dynamic_eval :
    build_pix_payload "teste@email.com".data "LOJA TESTE".data "SAO PAULO".data
        (some 1000) none none true =
      .ok "00020101021226370014BR.GOV.BCB.PIX0115teste@email.com520400005303986540510.005802BR5910LOJA TESTE6009SAO PAULO63045762".data := by
  rw [build_pix_payload, if_neg (by decide), if_neg (by decide), if_neg (by decide),
    if_neg (by decide), if_neg (by decide), if_neg (by decide)]
  have hnc : payloadNoCrc "teste@email.com".data "LOJA TESTE".data "SAO PAULO".data
      (some 1000) none none true =
      "00020101021226370014BR.GOV.BCB.PIX0115teste@email.com520400005303986540510.005802BR5910LOJA TESTE6009SAO PAULO6304".data := by
    decide
  have hcrc : crc16 (strUtf8 "00020101021226370014BR.GOV.BCB.PIX0115teste@email.com520400005303986540510.005802BR5910LOJA TESTE6009SAO PAULO6304".data) = "5762".data := by
    rw [crc16, crc_dynamic_reg]
    decide
  rw [hnc, hcrc]
  rw [show "00020101021226370014BR.GOV.BCB.PIX0115teste@email.com520400005303986540510.005802BR5910LOJA TESTE6009SAO PAULO6304".data ++ "5762".data =
    "00020101021226370014BR.GOV.BCB.PIX0115teste@email.com520400005303986540510.005802BR5910LOJA TESTE6009SAO PAULO63045762".data from by decide]


/-- Every formatted CRC consists of uppercase hex digits. -/
theorem crc16_all_hex (data : List Nat) : (crc16 data).all isHexUpperDigit = true := by
  show (fmt04X (crc16Reg data)).all isHexUpperDigit = true
  unfold fmt04X
  simp only [List.all_cons, List.all_nil, Bool.and_true]
  rw [hexUpperChar_isHex _ (Nat.mod_lt _ (by norm_num)),
    hexUpperChar_isHex _ (Nat.mod_lt _ (by norm_num)),
    hexUpperChar_isHex _ (Nat.mod_lt _ (by norm_num)),
    hexUpperChar_isHex _ (Nat.mod_lt _ (by norm_num))]
  rfl

/-- Tail structure of a string of the form prefix ++ "6304" ++ CRC(prefix ++ "6304"). -/
theorem crc_tail_structure (pre s : List Char)
    (hs : s = pre ++ "6304".data ++ crc16 (strUtf8 (pre ++ "6304".data))) :
    s.take (s.length - 4) = pre ++ "6304".data ∧
    s.drop (s.length - 4) = crc16 (strUtf8 (s.take (s.length - 4))) ∧
    (s.drop (s.length - 4)).length = 4 ∧
    (s.drop (s.length - 4)).all isHexUpperDigit = true := by
  have hlen4 : (crc16 (strUtf8 (pre ++ "6304".data))).length = 4 := rfl
  have hslen : s.length - 4 = (pre ++ "6304".data).length := by
    rw [hs, List.length_append, hlen4]
    omega
  have htake : s.take (s.length - 4) = pre ++ "6304".data := by
    rw [hslen, hs, List.take_left]
  have hdrop : s.drop (s.length - 4) = crc16 (strUtf8 (pre ++ "6304".data)) := by
    rw [hslen, hs, List.drop_left]
  refine ⟨htake, ?_, ?_, ?_⟩
  · rw [hdrop, htake]
  · rw [hdrop]
    exact hlen4
  · rw [hdrop]
    exact crc16_all_hex _

/-- C1: whenever `build_pix_payload` returns a payload, its trailing 4
characters are the CRC16 recomputed over the UTF-8 bytes of everything
preceding them (which ends with the literal "6304": tag 63 and length 04); the
CRC is never part of its own input, and the trailing 4 characters are uppercase
hex digits. -/
theorem build_payload_crc_selfconsistency
    (chave name city : List Char) (valor : Option Int)
    (txid description : Option (List Char)) (dynamic : Bool) (s : List Char)
    (h : build_pix_payload chave name city valor txid description dynamic = .ok s) :
    ∃ pre : List Char,
      s = pre ++ "6304".data ++ crc16 (strUtf8 (pre ++ "6304".data)) ∧
      s.take (s.length - 4) = pre ++ "6304".data ∧
      s.drop (s.length - 4) = crc16 (strUtf8 (s.take (s.length - 4))) ∧
      (s.drop (s.length - 4)).length = 4 ∧
      (s.drop (s.length - 4)).all isHexUpperDigit = true := by
  rw [build_pix_payload] at h
  split at h
  · exact Except.noConfusion h
  split at h
  · exact Except.noConfusion h
  split at h
  · exact Except.noConfusion h
  split at h
  · exact Except.noConfusion h
  split at h
  · exact Except.noConfusion h
  split at h
  · exact Except.noConfusion h
  exact ⟨payloadParts chave name city valor txid description dynamic,
    (Except.ok.inj h).symm, crc_tail_structure _ _ (Except.ok.inj h).symm⟩

/-- Witness for `build_payload_crc_selfconsistency` on a concrete successful
build. -/
theorem build_payload_crc_selfconsistency_witness :
    build_pix_payload "teste@email.com".data "LOJA TESTE".data "SAO PAULO".data
        (some 1000) none none false =
      .ok "00020101021126370014BR.GOV.BCB.PIX0115teste@email.com520400005303986540510.005802BR5910LOJA TESTE6009SAO PAULO63045BAB".data ∧
    ∃ pre : List Char,
      ("00020101021126370014BR.GOV.BCB.PIX0115teste@email.com520400005303986540510.005802BR5910LOJA TESTE6009SAO PAULO63045BAB".data : List Char) =
          pre ++ "6304".data ++ crc16 (strUtf8 (pre ++ "6304".data)) ∧
      ("00020101021126370014BR.GOV.BCB.PIX0115teste@email.com520400005303986540510.005802BR5910LOJA TESTE6009SAO PAULO63045BAB".data : List Char).take
          (("00020101021126370014BR.GOV.BCB.PIX0115teste@email.com520400005303986540510.005802BR5910LOJA TESTE6009SAO PAULO63045BAB".data : List Char).length - 4) =
        pre ++ "6304".data ∧
      ("00020101021126370014BR.GOV.BCB.PIX0115teste@email.com520400005303986540510.005802BR5910LOJA TESTE6009SAO PAULO63045BAB".data : List Char).drop
          (("00020101021126370014BR.GOV.BCB.PIX0115teste@email.com520400005303986540510.005802BR5910LOJA TESTE6009SAO PAULO63045BAB".data : List Char).length - 4) =
        crc16 (strUtf8 (("00020101021126370014BR.GOV.BCB.PIX0115teste@email.com520400005303986540510.005802BR5910LOJA TESTE6009SAO PAULO63045BAB".data : List Char).take
          (("00020101021126370014BR.GOV.BCB.PIX0115teste@email.com520400005303986540510.005802BR5910LOJA TESTE6009SAO PAULO63045BAB".data : List Char).length - 4))) ∧
      (("00020101021126370014BR.GOV.BCB.PIX0115teste@email.com520400005303986540510.005802BR5910LOJA TESTE6009SAO PAULO63045BAB".data : List Char).drop
          (("00020101021126370014BR.GOV.BCB.PIX0115teste@email.com520400005303986540510.005802BR5910LOJA TESTE6009SAO PAULO63045BAB".data : List Char).length - 4)).length = 4 ∧
      (("00020101021126370014BR.GOV.BCB.PIX0115teste@email.com520400005303986540510.005802BR5910LOJA TESTE6009SAO PAULO63045BAB".data : List Char).drop
          (("00020101021126370014BR.GOV.BCB.PIX0115teste@email.com520400005303986540510.005802BR5910LOJA TESTE6009SAO PAULO63045BAB".data : List Char).length - 4)).all
        isHexUpperDigit = true :=
  ⟨build_static_eval,
    build_payload_crc_selfconsistency "teste@email.com".data "LOJA TESTE".data
      "SAO PAULO".data (some 1000) none none false _ build_static_eval⟩


/-- C4 counterexample: a txid of 26 dots is rejected with the txid-too-long
error even though its normalized form is empty (length 0, at most 25): the
source checks the raw txid length before normalization, refuting the claim
that an over-long raw txid with a short normalized form is accepted. -/
theorem txid_rawlength_counterexample :
    build_pix_payload "teste@email.com".data "LOJA TESTE".data "SAO PAULO".data none
        (some (List.replicate 26 '.')) none false =
      .error "txid deve ter no máximo 25 caracteres" ∧
    25 < (List.replicate 26 '.').length ∧
    (normalize_text (List.replicate 26 '.')).length ≤ 25 := by
  refine ⟨?_, by decide, by decide⟩
  rw [build_pix_payload, if_neg (by decide), if_neg (by decide), if_neg (by decide),
    if_pos (by decide)]

/-- C4 amended: provided key, name and city are nonempty and the amount check
passes, `build_pix_payload` fails with the txid-too-long error exactly when the
raw txid (before normalization) is nonempty and exceeds 25 characters; a txid
passing that check is normalized and truncated to 25 characters, never
rejected. -/
theorem txid_error_iff_raw_too_long (chave name city : List Char) (valor : Option Int)
    (txid : List Char) (description : Option (List Char)) (dynamic : Bool)
    (h1 : chave ≠ []) (h2 : name ≠ []) (h3 : city ≠ [])
    (h4 : valorNonpos valor = false) :
    (build_pix_payload chave name city valor (some txid) description dynamic =
        .error "txid deve ter no máximo 25 caracteres") ↔
      (txid ≠ [] ∧ 25 < txid.length) := by
  rw [build_pix_payload, if_neg h1, if_neg (by simp [h2, h3]), if_neg (by simp [h4])]
  by_cases htl : txidTooLong (some txid) = true
  · rw [if_pos htl]
    simp only [txidTooLong, Bool.and_eq_true, Bool.not_eq_true', List.isEmpty_eq_false,
      decide_eq_true_eq, ne_eq] at htl
    exact ⟨fun _ => htl, fun _ => rfl⟩
  · rw [if_neg htl]
    constructor
    · intro he
      exfalso
      split at he
      · exact absurd (Except.error.inj he) (by decide)
      split at he
      · exact absurd (Except.error.inj he) (by decide)
      exact Except.noConfusion he
    · rintro ⟨hne, hlen⟩
      exfalso
      apply htl
      simp only [txidTooLong, Bool.and_eq_true, Bool.not_eq_true', List.isEmpty_eq_false,
        decide_eq_true_eq, ne_eq]
      exact ⟨hne, hlen⟩

/-- Witness for `txid_error_iff_raw_too_long` at a concrete 26-character
txid. -/
theorem txid_error_iff_raw_too_long_witness :
    build_pix_payload "a".data "B".data "C".data none
        (some (List.replicate 26 '.')) none false =
      .error "txid deve ter no máximo 25 caracteres" ↔
      (List.replicate 26 '.' ≠ [] ∧ 25 < (List.replicate 26 '.').length) :=
  txid_error_iff_raw_too_long "a".data "B".data "C".data none (List.replicate 26 '.')
    none false (by decide) (by decide) (by decide) (by decide)

/-- C6 counterexample: for the claim's inputs with dynamic=true the payload
contains neither "000102" nor "0112"; the format indicator is always encoded
as "000201" and the init method as "010212". -/
theorem dynamic_substring_counterexample :
    build_pix_payload "teste@email.com".data "LOJA TESTE".data "SAO PAULO".data
        (some 1000) none none true =
      .ok "00020101021226370014BR.GOV.BCB.PIX0115teste@email.com520400005303986540510.005802BR5910LOJA TESTE6009SAO PAULO63045762".data ∧
    containsSub "00020101021226370014BR.GOV.BCB.PIX0115teste@email.com520400005303986540510.005802BR5910LOJA TESTE6009SAO PAULO63045762".data "000102".data = false ∧
    containsSub "00020101021226370014BR.GOV.BCB.PIX0115teste@email.com520400005303986540510.005802BR5910LOJA TESTE6009SAO PAULO63045762".data "0112".data = false :=
  ⟨build_dynamic_eval, by decide, by decide⟩

/-- C6 amended: for key "teste@email.com", name "LOJA TESTE", city
"SAO PAULO", amount 10.00: with dynamic=true the payload contains
"000201" immediately followed by "010212" (init method 12) and contains
neither "0111" nor "010211"; with dynamic=false it contains "000201" and
"010211" (init method 11), as well as the claimed static substrings. -/
theorem payload_init_method_substrings :
    (build_pix_payload "teste@email.com".data "LOJA TESTE".data "SAO PAULO".data
        (some 1000) none none true =
      .ok "00020101021226370014BR.GOV.BCB.PIX0115teste@email.com520400005303986540510.005802BR5910LOJA TESTE6009SAO PAULO63045762".data ∧
     containsSub "00020101021226370014BR.GOV.BCB.PIX0115teste@email.com520400005303986540510.005802BR5910LOJA TESTE6009SAO PAULO63045762".data "000201010212".data = true ∧
     containsSub "00020101021226370014BR.GOV.BCB.PIX0115teste@email.com520400005303986540510.005802BR5910LOJA TESTE6009SAO PAULO63045762".data "0111".data = false ∧
     containsSub "00020101021226370014BR.GOV.BCB.PIX0115teste@email.com520400005303986540510.005802BR5910LOJA TESTE6009SAO PAULO63045762".data "010211".data = false) ∧
    (build_pix_payload "teste@email.com".data "LOJA TESTE".data "SAO PAULO".data
        (some 1000) none none false =
      .ok "00020101021126370014BR.GOV.BCB.PIX0115teste@email.com520400005303986540510.005802BR5910LOJA TESTE6009SAO PAULO63045BAB".data ∧
     containsSub "00020101021126370014BR.GOV.BCB.PIX0115teste@email.com520400005303986540510.005802BR5910LOJA TESTE6009SAO PAULO63045BAB".data "000201".data = true ∧
     containsSub "00020101021126370014BR.GOV.BCB.PIX0115teste@email.com520400005303986540510.005802BR5910LOJA TESTE6009SAO PAULO63045BAB".data "010211".data = true ∧
     containsSub "00020101021126370014BR.GOV.BCB.PIX0115teste@email.com520400005303986540510.005802BR5910LOJA TESTE6009SAO PAULO63045BAB".data "540510.00".data = true ∧
     containsSub "00020101021126370014BR.GOV.BCB.PIX0115teste@email.com520400005303986540510.005802BR5910LOJA TESTE6009SAO PAULO63045BAB".data "5910LOJA TESTE".data = true ∧
     containsSub "00020101021126370014BR.GOV.BCB.PIX0115teste@email.com520400005303986540510.005802BR5910LOJA TESTE6009SAO PAULO63045BAB".data "BR.GOV.BCB.PIX".data = true) :=
  ⟨⟨build_dynamic_eval, by decide, by decide, by decide⟩,
   ⟨build_static_eval, by decide, by decide, by decide, by decide, by decide⟩⟩


end QrcodePix
